import Mathlib

/-!
Shallow embedding of the Swiss source-tax data pipeline
(`src/data_processing.py`, `src/main.py`, `src/visualization.py`).

Rows of the pandas DataFrame are modelled per cell: a cell of a string
column is `Option (List Char)` (`none` is pandas `NaN`), and the fixed-width
reader (`pd.read_fwf`) is modelled per line as positional slicing followed
by whitespace stripping, with an all-blank field becoming `NaN`.
Currency cells hold exact rationals (the idealisation of Python floats).
Operations that can raise a Python exception (`str + float` in the
`tarif_code` lambda, `astype(float)` / `astype(int)` on a non-numeric
string) return `Except PdErr`.
-/

/-- Cell of a string column: `none` models pandas `NaN`. -/
abbrev PdCell := Option (List Char)

/-- Python exceptions surfaced by the pipeline: `typeError` for `str + float`
concatenation inside the `tarif_code` lambda, `valueError` for
`astype(float)` / `astype(int)` applied to a non-numeric string. -/
inductive PdErr where
  | typeError
  | valueError
deriving DecidableEq, Repr

/-- Python slice `line[a:b]` (clipped at the end of the string), as used by
`pd.read_fwf` for a colspec `(a, b)`. -/
def pySlice (line : List Char) (a b : Nat) : List Char :=
  (line.take b).drop a

/-- Python `str.strip()`: remove leading and trailing whitespace. -/
def stripChars (s : List Char) : List Char :=
  ((s.dropWhile Char.isWhitespace).reverse.dropWhile Char.isWhitespace).reverse

/-- One cell of the fixed-width read (`pd.read_fwf` with colspec `(a, b)`,
src/data_processing.py lines 25-58): slice the line positionally, strip
whitespace, and turn an all-blank field into `NaN`. -/
def readCell (line : List Char) (a b : Nat) : PdCell :=
  let s := stripChars (pySlice line a b)
  if s.isEmpty then none else some s

/-- pandas `.str[i]` on a cell: character at position `i`, `NaN` when the cell
is `NaN` or too short (src/data_processing.py lines 61-63). -/
def strGet (c : PdCell) (i : Nat) : Option Char :=
  c.bind fun s => s.get? i

/-- Value of a digit string (most significant first). -/
def digitsVal (s : List Char) : Nat :=
  s.foldl (fun n c => 10 * n + (c.toNat - 48)) 0

/-- Parse a non-empty unsigned digit string, as Python `int(s)` does for
unsigned input. -/
def parseDigits (s : List Char) : Option Nat :=
  if s.all Char.isDigit && !s.isEmpty then some (digitsVal s) else none

/-- Python `int(s)` on a stripped string: optional sign, then digits.
Used to model `astype(int)` on one cell (src/data_processing.py line 123). -/
def parsePyInt : List Char → Option Int
  | '-' :: s => (parseDigits s).map fun n => -(n : Int)
  | '+' :: s => (parseDigits s).map fun n => (n : Int)
  | s => (parseDigits s).map fun n => (n : Int)

/-- Unsigned decimal literal `digits[.digits]` (either part may be empty but
not both), valued as an exact rational. -/
def parseFixedPoint (s : List Char) : Option ℚ :=
  let ip := s.takeWhile fun c => c ≠ '.'
  let rest := s.dropWhile fun c => c ≠ '.'
  let fp := rest.drop 1
  if ip.all Char.isDigit && fp.all Char.isDigit && !(ip ++ fp).isEmpty then
    some (mkRat (digitsVal (ip ++ fp)) (10 ^ fp.length))
  else none

/-- Python `float(s)` on a stripped string (exponent-free decimal literals,
which is the fixed-width numeric domain): optional sign, then
`digits[.digits]`. Models the per-cell numeric conversion behind
`astype(float)` (src/data_processing.py lines 77-79). -/
def parsePyFloat : List Char → Option ℚ
  | '-' :: s => (parseFixedPoint s).map fun q => -q
  | '+' :: s => parseFixedPoint s
  | s => parseFixedPoint s

/-- Exact division of a rational by a natural number, written with `mkRat` so
that it evaluates on concrete records; `ratDivNat_eq` proves it is ordinary
division. Models the `/ 100` of src/data_processing.py lines 77-79. -/
def ratDivNat (q : ℚ) (d : Nat) : ℚ := mkRat q.num (q.den * d)

/-- `astype(float)` on one cell: `NaN` stays `NaN`, a numeric string converts,
a non-numeric string raises `ValueError` (src/data_processing.py lines 77-79). -/
def astype_float : PdCell → Except PdErr (Option ℚ)
  | none => .ok none
  | some s =>
    match parsePyFloat s with
    | some q => .ok (some q)
    | none => .error .valueError

/-- The `tarif_code` lambda of src/data_processing.py lines 70-74:
`one + two if not is_integer else one`, on cells that are either a
one-character string or `NaN`. `NaN + NaN` is float addition (again `NaN`);
mixing a string with `NaN` raises `TypeError`. -/
def tarifCodeOfRow (one two : Option Char) (isInt : Bool) : Except PdErr PdCell :=
  if isInt then .ok (one.map fun c => [c])
  else
    match one, two with
    | some a, some b => .ok (some [a, b])
    | none, none => .ok none
    | _, _ => .error .typeError

/-- Decoded Record: one row of the cleaned DataFrame produced by
`process_txt_files` (all twelve fixed-width columns plus the derived
fields of src/data_processing.py lines 60-79). -/
structure DecodedRow where
  recordart : PdCell
  transaktionsart : PdCell
  kanton : PdCell
  code_tarif : PdCell
  datum_gueltig_ab : PdCell
  tarifschritt : PdCell
  code_geschlecht : PdCell
  anzahl_kinder : PdCell
  code_status : PdCell
  code_tarif_one : Option Char
  code_tarif_two : Option Char
  kirchensteuer : Option Char
  is_integer : Bool
  tarif_code : PdCell
  steuerbares_einkommen : Option ℚ
  mindeststeuer : Option ℚ
  steuer_prozent : Option ℚ
deriving DecidableEq, Repr

/-- Decode one fixed-width line into a Decoded Record: the per-row semantics
of src/data_processing.py lines 25-79 (colspec slicing, whitespace
stripping, `code_tarif` split, `is_integer` test via `pd.to_numeric`,
`tarif_code` lambda, and division of the three currency columns by 100). -/
def decodeRecord (line : List Char) : Except PdErr DecodedRow :=
  let code_tarif := readCell line 6 16
  let one := strGet code_tarif 0
  let two := strGet code_tarif 1
  let kirch := strGet code_tarif 2
  let isInt := (two.map Char.isDigit).getD false
  match tarifCodeOfRow one two isInt with
  | .error e => .error e
  | .ok tc =>
    match astype_float (readCell line 24 33), astype_float (readCell line 45 54),
        astype_float (readCell line 54 59) with
    | .ok se, .ok ms, .ok sp =>
      .ok
        { recordart := readCell line 0 2
          transaktionsart := readCell line 2 4
          kanton := readCell line 4 6
          code_tarif := code_tarif
          datum_gueltig_ab := readCell line 16 24
          tarifschritt := readCell line 33 42
          code_geschlecht := readCell line 42 43
          anzahl_kinder := readCell line 43 45
          code_status := readCell line 59 62
          code_tarif_one := one
          code_tarif_two := two
          kirchensteuer := kirch
          is_integer := isInt
          tarif_code := tc
          steuerbares_einkommen := se.map fun q => ratDivNat q 100
          mindeststeuer := ms.map fun q => ratDivNat q 100
          steuer_prozent := sp.map fun q => ratDivNat q 100 }
    | .error e, _, _ => .error e
    | _, .error e, _ => .error e
    | _, _, .error e => .error e

/-- Apply a fallible per-row operation to every row, propagating the first
exception (the semantics of a column-wise pandas conversion or of
`parallel_apply` for this pipeline's error reporting). -/
def mapExcept {α β : Type} (f : α → Except PdErr β) : List α → Except PdErr (List β)
  | [] => .ok []
  | x :: xs =>
    match f x with
    | .error e => .error e
    | .ok y =>
      match mapExcept f xs with
      | .error e => .error e
      | .ok ys => .ok (y :: ys)

/-- `process_txt_files` on the concatenated input lines: skip the first
file's header line (`skiprows=1`) and the last file's footer line
(`skipfooter=1`), then decode every remaining line
(src/data_processing.py lines 46-88). -/
def process_txt_files (lines : List (List Char)) : Except PdErr (List DecodedRow) :=
  mapExcept decodeRecord ((lines.drop 1).dropLast)

deriving instance DecidableEq for Except

/-- Filtered Record: one row of `filter_data`'s output
(src/data_processing.py lines 110-128): all Decoded Record columns, with
`kanton` coerced to a plain string (`astype(str)` turns `NaN` into the
literal string `"nan"`) and `anzahl_kinder` coerced to an integer after
`fillna(0)`. -/
structure FilteredRow where
  recordart : PdCell
  transaktionsart : PdCell
  kanton : List Char
  code_tarif : PdCell
  datum_gueltig_ab : PdCell
  tarifschritt : PdCell
  code_geschlecht : PdCell
  code_status : PdCell
  code_tarif_one : Option Char
  code_tarif_two : Option Char
  kirchensteuer : Option Char
  is_integer : Bool
  tarif_code : PdCell
  anzahl_kinder : Int
  steuerbares_einkommen : Option ℚ
  mindeststeuer : Option ℚ
  steuer_prozent : Option ℚ
deriving DecidableEq, Repr

/-- `astype(str)` on one cell (src/data_processing.py line 120): a string
stays itself, `NaN` becomes the literal string `"nan"`. -/
def kantonAstypeStr : PdCell → List Char
  | some s => s
  | none => ['n', 'a', 'n']

/-- `fillna(0).astype(int)` on one `anzahl_kinder` cell
(src/data_processing.py line 123): `NaN` becomes `0`, a numeric string
converts, a non-numeric string raises `ValueError`. -/
def kinderFillnaAstypeInt : PdCell → Except PdErr Int
  | none => .ok 0
  | some s =>
    match parsePyInt s with
    | some n => .ok n
    | none => .error .valueError

/-- The boolean mask `df['steuerbares_einkommen'] <= 30_000` of
src/data_processing.py line 117; a `NaN` comparison is `False` in pandas. -/
def incomeLe30000 (r : DecodedRow) : Bool :=
  match r.steuerbares_einkommen with
  | some v => decide (v ≤ 30000)
  | none => false

/-- The per-row column coercions of `filter_data`
(src/data_processing.py lines 120-123). -/
def toFilteredRow (r : DecodedRow) : Except PdErr FilteredRow :=
  match kinderFillnaAstypeInt r.anzahl_kinder with
  | .error e => .error e
  | .ok k =>
    .ok
      { recordart := r.recordart
        transaktionsart := r.transaktionsart
        kanton := kantonAstypeStr r.kanton
        code_tarif := r.code_tarif
        datum_gueltig_ab := r.datum_gueltig_ab
        tarifschritt := r.tarifschritt
        code_geschlecht := r.code_geschlecht
        code_status := r.code_status
        code_tarif_one := r.code_tarif_one
        code_tarif_two := r.code_tarif_two
        kirchensteuer := r.kirchensteuer
        is_integer := r.is_integer
        tarif_code := r.tarif_code
        anzahl_kinder := k
        steuerbares_einkommen := r.steuerbares_einkommen
        mindeststeuer := r.mindeststeuer
        steuer_prozent := r.steuer_prozent }

/-- `filter_data` (src/data_processing.py lines 110-128): keep the rows whose
taxable income is at most 30,000, then coerce `kanton` to string and
`anzahl_kinder` to integer (the latter can raise). -/
def filter_data (df : List DecodedRow) : Except PdErr (List FilteredRow) :=
  mapExcept toFilteredRow (df.filter incomeLe30000)

/-- pandas `==` between a character cell and a scalar: `NaN == x` is `False`. -/
def cellEqChar (c : Option Char) (x : Char) : Bool :=
  match c with
  | some a => a = x
  | none => false

/-- pandas `==` between a string cell and a scalar: `NaN == x` is `False`. -/
def cellEqStr (c : PdCell) (x : List Char) : Bool :=
  match c with
  | some a => a = x
  | none => false

/-- The boolean-mask filter of `update_figure` (src/main.py lines 638-643):
church-tax flag, tariff code, and child count must all equal the selected
values. -/
def update_figure_filter (df : List FilteredRow) (kirchensteuer : Char)
    (tarif_code : List Char) (children : Int) : List FilteredRow :=
  df.filter fun r =>
    cellEqChar r.kirchensteuer kirchensteuer && cellEqStr r.tarif_code tarif_code &&
      r.anzahl_kinder == children

/-- The income-range mask of `create_base_figure`
(src/visualization.py lines 55-58): `x_min <= steuerbares_einkommen <= x_max`,
both bounds inclusive; a `NaN` comparison is `False`. -/
def income_range_filter (df : List FilteredRow) (x_min x_max : ℚ) : List FilteredRow :=
  df.filter fun r =>
    match r.steuerbares_einkommen with
    | some v => decide (x_min ≤ v) && decide (v ≤ x_max)
    | none => false

/-- Region selection: the union over the selected regions of the per-canton
slices `df_filtered[df_filtered['kanton'] == canton]`
(src/visualization.py line 75), keeping input order. -/
def region_filter (df : List FilteredRow) (regions : List (List Char)) : List FilteredRow :=
  df.filter fun r => regions.contains r.kanton

/-- The whole criteria filter the presentation layer applies to the filtered
table: `update_figure`'s equality masks, then `create_base_figure`'s
income-range mask, then the region selection. -/
def combined_filter (df : List FilteredRow) (regions : List (List Char))
    (kirchensteuer : Char) (tarif_code : List Char) (children : Int)
    (x_min x_max : ℚ) : List FilteredRow :=
  region_filter
    (income_range_filter (update_figure_filter df kirchensteuer tarif_code children) x_min x_max)
    regions

/-- Modelled from the spec (§4.2): a row satisfies a criteria set when it
matches region membership, church-tax equality, tariff-code equality,
child-count equality, and the inclusive income range, simultaneously
(logical AND). Used to compare the code's filter chain against the
spec's contract. -/
def matchesCriteria (regions : List (List Char)) (kirchensteuer : Char)
    (tarif_code : List Char) (children : Int) (x_min x_max : ℚ)
    (r : FilteredRow) : Prop :=
  r.kanton ∈ regions ∧ r.kirchensteuer = some kirchensteuer ∧
    r.tarif_code = some tarif_code ∧ r.anzahl_kinder = children ∧
    ∃ v, r.steuerbares_einkommen = some v ∧ x_min ≤ v ∧ v ≤ x_max

/-- A well-formed 62-character line: tariff `A0N`, income 3000 cents. -/
def lineA0N : List Char := "0122ZHA0N       20250101000003000000000100M0000000000100500000".data

/-- A well-formed 62-character line: tariff `AAY`, canton `BE`. -/
def lineAAY : List Char := "0122BEAAY       20250101000003000000000100M0000000000100500000".data

/-- A 62-character line whose minimum-tax field is all blanks. -/
def blankMindestLine : List Char :=
  "0122ZHA0N       20250101000003000000000100M00         00500000".data

/-- A 62-character line whose taxable-income field is non-numeric. -/
def badCurrencyLine : List Char :=
  "0122ZHA0N       20250101ABCDEFGHI000000100M0000000000100500000".data

/-- A 62-character line whose child-count field is the non-numeric `1X`. -/
def badKinderLine : List Char :=
  "0122ZHA0N       20250101000003000000000100M1X00000000100500000".data

/-- A 9-character (malformed, shorter than 62) line. -/
def shortLine : List Char := "0122ZHA0N".data

/-- Stand-in for the first input file's header line (always skipped). -/
def headerLine : List Char := "00HEADER".data

/-- Stand-in for the last input file's footer line (always skipped). -/
def footerLine : List Char := "99FOOTER".data

/-- A Decoded Record whose child-count cell is missing (used as a concrete
input for the `fillna(0)` behavior). -/
def rowNoKinder : DecodedRow :=
  { recordart := none
    transaktionsart := none
    kanton := some ['Z', 'H']
    code_tarif := some ['A', '0', 'N']
    datum_gueltig_ab := none
    tarifschritt := none
    code_geschlecht := none
    anzahl_kinder := none
    code_status := none
    code_tarif_one := some 'A'
    code_tarif_two := some '0'
    kirchensteuer := some 'N'
    is_integer := true
    tarif_code := some ['A']
    steuerbares_einkommen := some 10
    mindeststeuer := none
    steuer_prozent := some 4 }

/-- The Filtered Record `filter_data` produces from `rowNoKinder`. -/
def frNoKinder : FilteredRow :=
  { recordart := none
    transaktionsart := none
    kanton := ['Z', 'H']
    code_tarif := some ['A', '0', 'N']
    datum_gueltig_ab := none
    tarifschritt := none
    code_geschlecht := none
    code_status := none
    code_tarif_one := some 'A'
    code_tarif_two := some '0'
    kirchensteuer := some 'N'
    is_integer := true
    tarif_code := some ['A']
    anzahl_kinder := 0
    steuerbares_einkommen := some 10
    mindeststeuer := none
    steuer_prozent := some 4 }

/-- A Filtered Record used to instantiate the filter claims concretely. -/
def frZH : FilteredRow :=
  { recordart := none
    transaktionsart := none
    kanton := ['Z', 'H']
    code_tarif := some ['A', '0', 'N']
    datum_gueltig_ab := none
    tarifschritt := none
    code_geschlecht := none
    code_status := none
    code_tarif_one := some 'A'
    code_tarif_two := some '0'
    kirchensteuer := some 'N'
    is_integer := true
    tarif_code := some ['A']
    anzahl_kinder := 0
    steuerbares_einkommen := some 20
    mindeststeuer := none
    steuer_prozent := some 4 }

/-- A 62-character `ZH` line with income 1000 cents (10.00). -/
def lineZH1 : List Char := "0122ZHA0N       20250101000001000000000100M0000000000100400000".data

/-- A 62-character `ZH` line with income 2000 cents (20.00). -/
def lineZH2 : List Char := "0122ZHA0N       20250101000002000000000100M0000000000100450000".data

/-- A 62-character `BE` line with income 1000 cents (10.00). -/
def lineBE1 : List Char := "0122BEA0N       20250101000001000000000100M0000000000100300000".data

/-- A Decoded Record with a small income, used to instantiate C10. -/
def rowLowIncome : DecodedRow :=
  { recordart := none
    transaktionsart := none
    kanton := some ['B', 'E']
    code_tarif := some ['A', 'A', 'Y']
    datum_gueltig_ab := none
    tarifschritt := none
    code_geschlecht := none
    anzahl_kinder := some ['0', '2']
    code_status := none
    code_tarif_one := some 'A'
    code_tarif_two := some 'A'
    kirchensteuer := some 'Y'
    is_integer := false
    tarif_code := some ['A', 'A']
    steuerbares_einkommen := some 25
    mindeststeuer := some 1
    steuer_prozent := some 5 }

/-- The Filtered Record `filter_data` produces from `rowLowIncome`. -/
def frLowIncome : FilteredRow :=
  { recordart := none
    transaktionsart := none
    kanton := ['B', 'E']
    code_tarif := some ['A', 'A', 'Y']
    datum_gueltig_ab := none
    tarifschritt := none
    code_geschlecht := none
    code_status := none
    code_tarif_one := some 'A'
    code_tarif_two := some 'A'
    kirchensteuer := some 'Y'
    is_integer := false
    tarif_code := some ['A', 'A']
    anzahl_kinder := 2
    steuerbares_einkommen := some 25
    mindeststeuer := some 1
    steuer_prozent := some 5 }

/-- The Decoded Record the decoder produces from `lineA0N`. -/
def rowA0N : DecodedRow :=
  { recordart := some ['0', '1']
    transaktionsart := some ['2', '2']
    kanton := some ['Z', 'H']
    code_tarif := some ['A', '0', 'N']
    datum_gueltig_ab := some ['2', '0', '2', '5', '0', '1', '0', '1']
    tarifschritt := some ['0', '0', '0', '0', '0', '0', '1', '0', '0']
    code_geschlecht := some ['M']
    anzahl_kinder := some ['0', '0']
    code_status := some ['0', '0', '0']
    code_tarif_one := some 'A'
    code_tarif_two := some '0'
    kirchensteuer := some 'N'
    is_integer := true
    tarif_code := some ['A']
    steuerbares_einkommen := some 30
    mindeststeuer := some (mkRat 1 100)
    steuer_prozent := some 5 }

/-- The Decoded Record the decoder produces from `lineAAY`. -/
def rowAAY : DecodedRow :=
  { recordart := some ['0', '1']
    transaktionsart := some ['2', '2']
    kanton := some ['B', 'E']
    code_tarif := some ['A', 'A', 'Y']
    datum_gueltig_ab := some ['2', '0', '2', '5', '0', '1', '0', '1']
    tarifschritt := some ['0', '0', '0', '0', '0', '0', '1', '0', '0']
    code_geschlecht := some ['M']
    anzahl_kinder := some ['0', '0']
    code_status := some ['0', '0', '0']
    code_tarif_one := some 'A'
    code_tarif_two := some 'A'
    kirchensteuer := some 'Y'
    is_integer := false
    tarif_code := some ['A', 'A']
    steuerbares_einkommen := some 30
    mindeststeuer := some (mkRat 1 100)
    steuer_prozent := some 5 }


/-- A 62-character line whose 10-character tariff field is all blanks. -/
def blankTarifLine : List Char :=
  "0122ZH          20250101000003000000000100M0000000000100500000".data

/-- `ratDivNat` is ordinary division of rationals. -/
theorem ratDivNat_eq (q : ℚ) (d : Nat) : ratDivNat q d = q / d := by
  unfold ratDivNat
  rw [Rat.mkRat_eq_div]
  push_cast
  rw [← div_div, Rat.num_div_den]

/-- Characterisation of a successful decode: every field of the produced row
in terms of the raw line. -/
theorem decodeRecord_ok {line : List Char} {row : DecodedRow}
    (h : decodeRecord line = .ok row) :
    row.code_tarif = readCell line 6 16 ∧
      row.code_tarif_one = strGet (readCell line 6 16) 0 ∧
      row.code_tarif_two = strGet (readCell line 6 16) 1 ∧
      row.kirchensteuer = strGet (readCell line 6 16) 2 ∧
      row.is_integer = ((strGet (readCell line 6 16) 1).map Char.isDigit).getD false ∧
      tarifCodeOfRow row.code_tarif_one row.code_tarif_two row.is_integer = .ok row.tarif_code ∧
      (∃ se, astype_float (readCell line 24 33) = .ok se ∧
        row.steuerbares_einkommen = se.map fun q => ratDivNat q 100) ∧
      (∃ ms, astype_float (readCell line 45 54) = .ok ms ∧
        row.mindeststeuer = ms.map fun q => ratDivNat q 100) ∧
      (∃ sp, astype_float (readCell line 54 59) = .ok sp ∧
        row.steuer_prozent = sp.map fun q => ratDivNat q 100) ∧
      row.anzahl_kinder = readCell line 43 45 ∧
      row.kanton = readCell line 4 6 := by
  simp only [decodeRecord] at h
  split at h
  · exact absurd h (by simp)
  · split at h
    · injection h with h
      subst h
      exact ⟨rfl, rfl, rfl, rfl, rfl, by assumption, ⟨_, by assumption, rfl⟩,
        ⟨_, by assumption, rfl⟩, ⟨_, by assumption, rfl⟩, rfl, rfl⟩
    · exact absurd h (by simp)
    · exact absurd h (by simp)
    · exact absurd h (by simp)

/-- A successful `mapExcept` run explains every output row by an input row. -/
theorem mapExcept_ok_mem {α β : Type} {f : α → Except PdErr β} {l : List α}
    {out : List β} (h : mapExcept f l = .ok out) {y : β} (hy : y ∈ out) :
    ∃ x ∈ l, f x = .ok y := by
  induction l generalizing out with
  | nil =>
    simp only [mapExcept] at h
    injection h with h
    subst h
    cases hy
  | cons a as ih =>
    simp only [mapExcept] at h
    split at h
    · exact absurd h (by simp)
    · split at h
      · exact absurd h (by simp)
      · injection h with h
        subst h
        cases hy with
        | head => exact ⟨a, List.mem_cons_self a as, by assumption⟩
        | tail _ hy =>
          obtain ⟨x, hx, hfx⟩ := ih (by assumption) hy
          exact ⟨x, List.mem_cons_of_mem a hx, hfx⟩

/-- A successful `mapExcept` run maps every input row to some output row. -/
theorem mapExcept_ok_forward {α β : Type} {f : α → Except PdErr β} {l : List α}
    {out : List β} (h : mapExcept f l = .ok out) {x : α} (hx : x ∈ l) :
    ∃ y ∈ out, f x = .ok y := by
  induction l generalizing out with
  | nil => cases hx
  | cons a as ih =>
    simp only [mapExcept] at h
    split at h
    · exact absurd h (by simp)
    · split at h
      · exact absurd h (by simp)
      · injection h with h
        subst h
        cases hx with
        | head => exact ⟨_, List.mem_cons_self _ _, by assumption⟩
        | tail _ hx =>
          obtain ⟨y, hy, hfy⟩ := ih (by assumption) hx
          exact ⟨y, List.mem_cons_of_mem _ hy, hfy⟩

/-- Characterisation of a successful per-row coercion in `filter_data`. -/
theorem toFilteredRow_ok {r : DecodedRow} {fr : FilteredRow}
    (h : toFilteredRow r = .ok fr) :
    fr.steuerbares_einkommen = r.steuerbares_einkommen ∧
      fr.mindeststeuer = r.mindeststeuer ∧
      fr.steuer_prozent = r.steuer_prozent ∧
      fr.kanton = kantonAstypeStr r.kanton ∧
      kinderFillnaAstypeInt r.anzahl_kinder = .ok fr.anzahl_kinder := by
  unfold toFilteredRow at h
  split at h
  · exact absurd h (by simp)
  · injection h with h
    subst h
    exact ⟨rfl, rfl, rfl, rfl, by assumption⟩

/-- The conjunction of all criteria masks, fused into one boolean predicate
(the order produced by composing the three filter stages). -/
def criteriaB (regions : List (List Char)) (kirchensteuer : Char)
    (tarif_code : List Char) (children : Int) (x_min x_max : ℚ)
    (r : FilteredRow) : Bool :=
  (regions.contains r.kanton &&
      match r.steuerbares_einkommen with
      | some v => decide (x_min ≤ v) && decide (v ≤ x_max)
      | none => false) &&
    (cellEqChar r.kirchensteuer kirchensteuer && cellEqStr r.tarif_code tarif_code &&
      r.anzahl_kinder == children)

/-- The three filter stages fuse into one filtering pass with the conjunction
of their masks. -/
theorem combined_filter_eq (df : List FilteredRow) (regions : List (List Char))
    (kirchensteuer : Char) (tarif_code : List Char) (children : Int)
    (x_min x_max : ℚ) :
    combined_filter df regions kirchensteuer tarif_code children x_min x_max =
      df.filter (criteriaB regions kirchensteuer tarif_code children x_min x_max) := by
  unfold combined_filter region_filter income_range_filter update_figure_filter criteriaB
  rw [List.filter_filter, List.filter_filter]

/-- The fused boolean mask holds exactly when the spec-level criteria
proposition holds. -/
theorem criteriaB_iff (regions : List (List Char)) (kirchensteuer : Char)
    (tarif_code : List Char) (children : Int) (x_min x_max : ℚ)
    (r : FilteredRow) :
    criteriaB regions kirchensteuer tarif_code children x_min x_max r = true ↔
      matchesCriteria regions kirchensteuer tarif_code children x_min x_max r := by
  unfold criteriaB matchesCriteria cellEqChar cellEqStr
  cases r.steuerbares_einkommen <;> cases r.kirchensteuer <;> cases r.tarif_code <;>
    simp [List.contains, List.elem_iff, and_assoc, and_comm, and_left_comm]

/-- Income criterion of `filter_data` line 117, as a proposition. -/
theorem incomeLe30000_iff (r : DecodedRow) :
    incomeLe30000 r = true ↔ ∃ v, r.steuerbares_einkommen = some v ∧ v ≤ 30000 := by
  unfold incomeLe30000
  cases r.steuerbares_einkommen <;> simp

/-- C1: for every decoded record whose raw tariff code has a second
character, the derived `tarif_code` is the first character alone when that
second character is numeric, and the first two characters when it is not. -/
theorem claim_C1_tarif_code_roundtrip (line : List Char) (row : DecodedRow)
    (ct : List Char) (c1 c2 : Char)
    (h : decodeRecord line = .ok row) (hct : row.code_tarif = some ct)
    (h1 : ct.get? 0 = some c1) (h2 : ct.get? 1 = some c2) :
    (c2.isDigit = true → row.tarif_code = some [c1]) ∧
      (c2.isDigit = false → row.tarif_code = some [c1, c2]) := by
  obtain ⟨hcode, hone, htwo, -, hint, htc, -⟩ := decodeRecord_ok h
  have hcell : readCell line 6 16 = some ct := by rw [← hcode]; exact hct
  rw [hcell] at hone htwo hint
  simp only [strGet, Option.some_bind, h1, h2, Option.map_some', Option.getD_some] at hone htwo hint
  rw [hone, htwo, hint] at htc
  unfold tarifCodeOfRow at htc
  constructor
  · intro hd
    rw [hd] at htc
    simp only [if_true] at htc
    injection htc with htc
    simp at htc
    rw [htc]
  · intro hd
    rw [hd] at htc
    simp only [Bool.false_eq_true, if_false] at htc
    injection htc with htc
    rw [← htc]

/-- C5: a decoded record whose raw tariff code is present has a non-empty
derived `tarif_code` whose first character is the tariff code's first
character. -/
theorem claim_C5_tarif_code_nonempty (line : List Char) (row : DecodedRow)
    (ct : List Char) (c1 : Char)
    (h : decodeRecord line = .ok row) (hct : row.code_tarif = some ct)
    (h1 : ct.get? 0 = some c1) :
    ∃ tc, row.tarif_code = some tc ∧ tc ≠ [] ∧ tc.head? = some c1 := by
  obtain ⟨hcode, hone, htwo, -, hint, htc, -⟩ := decodeRecord_ok h
  have hcell : readCell line 6 16 = some ct := by rw [← hcode]; exact hct
  rw [hcell] at hone htwo hint
  simp only [strGet, Option.some_bind, h1] at hone htwo hint
  cases h2 : ct.get? 1 with
  | none =>
    rw [h2] at htwo hint
    simp only [Option.map_none', Option.getD_none] at hint
    rw [hone, htwo, hint] at htc
    unfold tarifCodeOfRow at htc
    simp at htc
  | some c2 =>
    rw [h2] at htwo hint
    simp only [Option.map_some', Option.getD_some] at hint
    rw [hone, htwo, hint] at htc
    unfold tarifCodeOfRow at htc
    by_cases hd : c2.isDigit
    · rw [hd] at htc
      simp only [if_true] at htc
      injection htc with htc
      exact ⟨[c1], htc.symm ▸ (by simp), by simp, by simp⟩
    · rw [Bool.not_eq_true] at hd
      rw [hd] at htc
      simp only [Bool.false_eq_true, if_false] at htc
      injection htc with htc
      exact ⟨[c1, c2], htc.symm ▸ (by simp), by simp, by simp⟩

/-- C3: when the three raw currency fields hold integer values, the decoded
record stores exactly those values divided by 100, and multiplying back by
100 recovers the raw integer exactly. -/
theorem claim_C3_currency_scaling (line : List Char) (row : DecodedRow)
    (se ms sp : List Char) (n m p : ℤ)
    (h : decodeRecord line = .ok row)
    (hse : readCell line 24 33 = some se) (hn : parsePyFloat se = some (n : ℚ))
    (hms : readCell line 45 54 = some ms) (hm : parsePyFloat ms = some (m : ℚ))
    (hsp : readCell line 54 59 = some sp) (hp : parsePyFloat sp = some (p : ℚ)) :
    (row.steuerbares_einkommen = some ((n : ℚ) / 100) ∧ ((n : ℚ) / 100) * 100 = (n : ℚ)) ∧
      (row.mindeststeuer = some ((m : ℚ) / 100) ∧ ((m : ℚ) / 100) * 100 = (m : ℚ)) ∧
      (row.steuer_prozent = some ((p : ℚ) / 100) ∧ ((p : ℚ) / 100) * 100 = (p : ℚ)) := by
  obtain ⟨-, -, -, -, -, -, ⟨seo, hseo, hrse⟩, ⟨mso, hmso, hrms⟩, ⟨spo, hspo, hrsp⟩, -⟩ :=
    decodeRecord_ok h
  rw [hse] at hseo
  rw [hms] at hmso
  rw [hsp] at hspo
  simp only [astype_float, hn, hm, hp] at hseo hmso hspo
  injection hseo with hseo
  injection hmso with hmso
  injection hspo with hspo
  subst hseo hmso hspo
  simp only [Option.map_some', ratDivNat_eq, Nat.cast_ofNat] at hrse hrms hrsp
  refine ⟨⟨hrse, ?_⟩, ⟨hrms, ?_⟩, ⟨hrsp, ?_⟩⟩ <;>
    exact div_mul_cancel₀ _ (by norm_num)

/-- C2: a batch containing a 9-character line (far shorter than the 62
characters the layout requires) is ingested without any error: the short
line silently becomes a decoded record whose currency fields are all `NaN`,
instead of failing with a parse error naming the line. -/
theorem claim_C2_short_line_silently_decoded :
    (process_txt_files [headerLine, shortLine, footerLine]).map
        (fun rs => rs.map fun r => r.kanton) = .ok [some ['Z', 'H']] ∧
      (process_txt_files [headerLine, shortLine, footerLine]).map
        (fun rs => rs.map fun r => r.tarif_code) = .ok [some ['A']] ∧
      (process_txt_files [headerLine, shortLine, footerLine]).map
        (fun rs => rs.map fun r => r.steuerbares_einkommen) = .ok [none] ∧
      (process_txt_files [headerLine, shortLine, footerLine]).map
        (fun rs => rs.map fun r => r.mindeststeuer) = .ok [none] ∧
      (process_txt_files [headerLine, shortLine, footerLine]).map
        (fun rs => rs.map fun r => r.steuer_prozent) = .ok [none] := by decide

/-- C6 counterexample: `blankMindestLine` is a full 62-character line whose
minimum-tax currency field is blank, so the field does not parse as a
number; decoding nevertheless succeeds and silently stores `NaN` for it
instead of failing with a decode error. -/
theorem claim_C6_counterexample :
    readCell blankMindestLine 45 54 = none ∧
      (decodeRecord blankMindestLine).map (fun r => r.mindeststeuer) = .ok none := by decide

/-- C6 (amended): when one of the three currency fields is non-blank and does
not parse as a number, decoding the line fails with a decode error; a blank
currency field instead silently decodes to a missing value. -/
theorem claim_C6_nonnumeric_currency (line : List Char) (s : List Char)
    (h : readCell line 24 33 = some s ∨ readCell line 45 54 = some s ∨
      readCell line 54 59 = some s)
    (hs : parsePyFloat s = none) :
    ∃ e, decodeRecord line = .error e := by
  simp only [decodeRecord]
  split
  · exact ⟨_, rfl⟩
  · split
    · exfalso
      rcases h with h | h | h <;> simp_all [astype_float]
    · exact ⟨_, rfl⟩
    · exact ⟨_, rfl⟩
    · exact ⟨_, rfl⟩

/-- C6 witness: a concrete line with a non-numeric taxable-income field makes
the decoder fail. -/
theorem claim_C6_nonnumeric_currency_witness :
    ∃ e, decodeRecord badCurrencyLine = .error e :=
  claim_C6_nonnumeric_currency badCurrencyLine
    ['A', 'B', 'C', 'D', 'E', 'F', 'G', 'H', 'I'] (Or.inl (by decide)) (by decide)

/-- C7 counterexample: a row whose child-count field is the unparseable
string `1X` does not get child count zero: `filter_data` raises a
`ValueError` on it, aborting the pipeline. -/
theorem claim_C7_counterexample :
    (decodeRecord badKinderLine).bind (fun r => filter_data [r]) =
      .error PdErr.valueError := by decide

/-- C7 (amended): for every row that survives `filter_data`, a missing
child-count becomes zero and a present one is parsed as an integer, while
every other field — in particular the other columns that may hold missing
values — is carried over unchanged. -/
theorem claim_C7_kinder_fillna (df : List DecodedRow) (out : List FilteredRow)
    (h : filter_data df = .ok out) (fr : FilteredRow) (hfr : fr ∈ out) :
    ∃ r ∈ df, incomeLe30000 r = true ∧
      (r.anzahl_kinder = none → fr.anzahl_kinder = 0) ∧
      (∀ s, r.anzahl_kinder = some s → parsePyInt s = some fr.anzahl_kinder) ∧
      fr.steuerbares_einkommen = r.steuerbares_einkommen ∧
      fr.mindeststeuer = r.mindeststeuer ∧
      fr.steuer_prozent = r.steuer_prozent := by
  obtain ⟨r, hr, hconv⟩ := mapExcept_ok_mem h hfr
  rw [List.mem_filter] at hr
  obtain ⟨hse, hms, hsp, -, hkind⟩ := toFilteredRow_ok hconv
  refine ⟨r, hr.1, hr.2, ?_, ?_, hse, hms, hsp⟩
  · intro hnone
    rw [hnone] at hkind
    simp only [kinderFillnaAstypeInt] at hkind
    injection hkind with hkind
    exact hkind.symm
  · intro s hsome
    rw [hsome] at hkind
    simp only [kinderFillnaAstypeInt] at hkind
    split at hkind
    · injection hkind with hkind
      simp_all
    · exact absurd hkind (by simp)

/-- C7 witness: on the one-row table `[rowNoKinder]` the amended statement
holds concretely, with the missing child count defaulted to zero. -/
theorem claim_C7_kinder_fillna_witness :
    ∃ r ∈ [rowNoKinder], incomeLe30000 r = true ∧
      (r.anzahl_kinder = none → frNoKinder.anzahl_kinder = 0) ∧
      (∀ s, r.anzahl_kinder = some s → parsePyInt s = some frNoKinder.anzahl_kinder) ∧
      frNoKinder.steuerbares_einkommen = r.steuerbares_einkommen ∧
      frNoKinder.mindeststeuer = r.mindeststeuer ∧
      frNoKinder.steuer_prozent = r.steuer_prozent :=
  claim_C7_kinder_fillna [rowNoKinder] [frNoKinder] (by decide) frNoKinder (by decide)

/-- C4: the composed presentation-layer filter returns exactly the rows that
satisfy all supplied criteria simultaneously (logical AND), and a row whose
income equals the lower or the upper bound of the income range is
included. -/
theorem claim_C4_filter_conjunction (df : List FilteredRow)
    (regions : List (List Char)) (kirchensteuer : Char) (tarif_code : List Char)
    (children : Int) (x_min x_max : ℚ) :
    (∀ r, r ∈ combined_filter df regions kirchensteuer tarif_code children x_min x_max ↔
        r ∈ df ∧ matchesCriteria regions kirchensteuer tarif_code children x_min x_max r) ∧
      (∀ r ∈ df, r.kanton ∈ regions → r.kirchensteuer = some kirchensteuer →
        r.tarif_code = some tarif_code → r.anzahl_kinder = children →
        r.steuerbares_einkommen = some x_min → x_min ≤ x_max →
        r ∈ combined_filter df regions kirchensteuer tarif_code children x_min x_max) ∧
      (∀ r ∈ df, r.kanton ∈ regions → r.kirchensteuer = some kirchensteuer →
        r.tarif_code = some tarif_code → r.anzahl_kinder = children →
        r.steuerbares_einkommen = some x_max → x_min ≤ x_max →
        r ∈ combined_filter df regions kirchensteuer tarif_code children x_min x_max) := by
  have hmain : ∀ r,
      r ∈ combined_filter df regions kirchensteuer tarif_code children x_min x_max ↔
        r ∈ df ∧ matchesCriteria regions kirchensteuer tarif_code children x_min x_max r := by
    intro r
    rw [combined_filter_eq, List.mem_filter, criteriaB_iff]
  refine ⟨hmain, ?_, ?_⟩
  · intro r hr hreg hk ht hc hinc hle
    exact (hmain r).mpr ⟨hr, hreg, hk, ht, hc, x_min, hinc, le_refl x_min, hle⟩
  · intro r hr hreg hk ht hc hinc hle
    exact (hmain r).mpr ⟨hr, hreg, hk, ht, hc, x_max, hinc, hle, le_refl x_max⟩

/-- C4 witness: `frZH` has income exactly at the lower bound 20 of the range
`[20, 30000]` and satisfies every other criterion, so the filter keeps it. -/
theorem claim_C4_filter_conjunction_witness :
    frZH ∈ combined_filter [frZH] [['Z', 'H']] 'N' ['A'] 0 20 30000 :=
  (claim_C4_filter_conjunction [frZH] [['Z', 'H']] 'N' ['A'] 0 20 30000).2.1 frZH
    (by decide) (by decide) (by decide) (by decide) (by decide) (by decide) (by decide)

/-- C8: applying the composed criteria filter to its own output with the same
criteria returns the same rows: filtering is idempotent. -/
theorem claim_C8_filter_idempotent (df : List FilteredRow)
    (regions : List (List Char)) (kirchensteuer : Char) (tarif_code : List Char)
    (children : Int) (x_min x_max : ℚ) :
    combined_filter
        (combined_filter df regions kirchensteuer tarif_code children x_min x_max)
        regions kirchensteuer tarif_code children x_min x_max =
      combined_filter df regions kirchensteuer tarif_code children x_min x_max := by
  rw [combined_filter_eq, combined_filter_eq, List.filter_filter]
  congr 1
  funext r
  exact Bool.and_self _

/-- C9: the composed criteria filter is order-stable — its output is a
sublist of its input (rows keep their original relative order) — and on a
concrete ingested table holding two `ZH` rows and one `BE` row, selecting
region `ZH` with income range `[0, 30000]` returns exactly the two `ZH`
rows in their original relative order. -/
theorem claim_C9_filter_order_stable :
    (∀ (df : List FilteredRow) (regions : List (List Char)) (kirchensteuer : Char)
      (tarif_code : List Char) (children : Int) (x_min x_max : ℚ),
      (combined_filter df regions kirchensteuer tarif_code children x_min x_max).Sublist df) ∧
      ((process_txt_files [headerLine, lineZH1, lineBE1, lineZH2, footerLine]).bind
            filter_data).map
          (fun out => (combined_filter out [['Z', 'H']] 'N' ['A'] 0 0 30000).map
            fun r => (r.kanton, r.steuerbares_einkommen)) =
        .ok [(['Z', 'H'], some 10), (['Z', 'H'], some 20)] := by
  constructor
  · intro df regions kirchensteuer tarif_code children x_min x_max
    unfold combined_filter region_filter income_range_filter update_figure_filter
    exact ((List.filter_sublist _).trans (List.filter_sublist _)).trans (List.filter_sublist _)
  · decide

/-- C10: a successful `filter_data` run keeps exactly the rows whose taxable
income is at most 30,000 (the boundary included): every output row stems
from such an input row and itself carries an income of at most 30,000,
every input row within the bound survives, and every row any downstream
criteria filter can see still has income at most 30,000. -/
theorem claim_C10_income_pretruncation (df : List DecodedRow) (out : List FilteredRow)
    (h : filter_data df = .ok out) :
    (∀ fr ∈ out, ∃ r ∈ df, toFilteredRow r = .ok fr ∧ incomeLe30000 r = true) ∧
      (∀ fr ∈ out, ∃ v, fr.steuerbares_einkommen = some v ∧ v ≤ 30000) ∧
      (∀ r ∈ df, incomeLe30000 r = true → ∃ fr ∈ out, toFilteredRow r = .ok fr) ∧
      (∀ (regions : List (List Char)) (kirchensteuer : Char) (tarif_code : List Char)
        (children : Int) (x_min x_max : ℚ),
        ∀ fr ∈ combined_filter out regions kirchensteuer tarif_code children x_min x_max,
          ∃ v, fr.steuerbares_einkommen = some v ∧ v ≤ 30000) := by
  have hsrc : ∀ fr ∈ out, ∃ r ∈ df, toFilteredRow r = .ok fr ∧ incomeLe30000 r = true := by
    intro fr hfr
    obtain ⟨r, hr, hconv⟩ := mapExcept_ok_mem h hfr
    rw [List.mem_filter] at hr
    exact ⟨r, hr.1, hconv, hr.2⟩
  have hbound : ∀ fr ∈ out, ∃ v, fr.steuerbares_einkommen = some v ∧ v ≤ 30000 := by
    intro fr hfr
    obtain ⟨r, -, hconv, hinc⟩ := hsrc fr hfr
    obtain ⟨v, hv, hvle⟩ := (incomeLe30000_iff r).mp hinc
    obtain ⟨hse, -⟩ := toFilteredRow_ok hconv
    exact ⟨v, hse.trans hv, hvle⟩
  refine ⟨hsrc, hbound, ?_, ?_⟩
  · intro r hr hinc
    exact mapExcept_ok_forward h (List.mem_filter.mpr ⟨hr, hinc⟩)
  · intro regions kirchensteuer tarif_code children x_min x_max fr hfr
    rw [combined_filter_eq, List.mem_filter] at hfr
    exact hbound fr hfr.1

/-- C10 witness: on the one-row table `[rowLowIncome]` the conclusion holds
concretely. -/
theorem claim_C10_income_pretruncation_witness :
    (∀ fr ∈ [frLowIncome], ∃ r ∈ [rowLowIncome],
        toFilteredRow r = .ok fr ∧ incomeLe30000 r = true) ∧
      (∀ fr ∈ [frLowIncome], ∃ v, fr.steuerbares_einkommen = some v ∧ v ≤ 30000) ∧
      (∀ r ∈ [rowLowIncome], incomeLe30000 r = true →
        ∃ fr ∈ [frLowIncome], toFilteredRow r = .ok fr) ∧
      (∀ (regions : List (List Char)) (kirchensteuer : Char) (tarif_code : List Char)
        (children : Int) (x_min x_max : ℚ),
        ∀ fr ∈ combined_filter [frLowIncome] regions kirchensteuer tarif_code children
            x_min x_max,
          ∃ v, fr.steuerbares_einkommen = some v ∧ v ≤ 30000) :=
  claim_C10_income_pretruncation [rowLowIncome] [frLowIncome] (by decide)

/-- C1 witness: the trimmed raw tariff field `A0N` of `lineA0N` has the
numeric second character `0`, and the decoded record's `tarif_code`
collapses to `A`. -/
theorem claim_C1_tarif_code_roundtrip_witness :
    ('0'.isDigit = true → rowA0N.tarif_code = some ['A']) ∧
      ('0'.isDigit = false → rowA0N.tarif_code = some ['A', '0']) :=
  claim_C1_tarif_code_roundtrip lineA0N rowA0N ['A', '0', 'N'] 'A' '0'
    (by decide) (by decide) (by decide) (by decide)

/-- C5 witness: the record decoded from `lineAAY` has a non-empty
`tarif_code` starting with `A`. -/
theorem claim_C5_tarif_code_nonempty_witness :
    ∃ tc, rowAAY.tarif_code = some tc ∧ tc ≠ [] ∧ tc.head? = some 'A' :=
  claim_C5_tarif_code_nonempty lineAAY rowAAY ['A', 'A', 'Y'] 'A'
    (by decide) (by decide) (by decide)

/-- C3 witness: `lineA0N` carries the raw integer currency values 3000, 1
and 500 cents, decoded to 30.00, 0.01 and 5.00. -/
theorem claim_C3_currency_scaling_witness :
    (rowA0N.steuerbares_einkommen = some (((3000 : ℤ) : ℚ) / 100) ∧
        (((3000 : ℤ) : ℚ) / 100) * 100 = ((3000 : ℤ) : ℚ)) ∧
      (rowA0N.mindeststeuer = some (((1 : ℤ) : ℚ) / 100) ∧
        (((1 : ℤ) : ℚ) / 100) * 100 = ((1 : ℤ) : ℚ)) ∧
      (rowA0N.steuer_prozent = some (((500 : ℤ) : ℚ) / 100) ∧
        (((500 : ℤ) : ℚ) / 100) * 100 = ((500 : ℤ) : ℚ)) :=
  claim_C3_currency_scaling lineA0N rowA0N
    "000003000".data "000000001".data "00500".data 3000 1 500
    (by decide) (by decide) (by decide) (by decide) (by decide) (by decide) (by decide)

/-- C5 counterexample: a valid 62-character line whose tariff field is blank
is decoded without error, yet its derived `tarif_code` is the missing
value `NaN` — not a non-empty string starting with a tariff-primary
character. -/
theorem claim_C5_counterexample :
    (decodeRecord blankTarifLine).map (fun r => (r.tarif_code, r.code_tarif_one)) =
      .ok (none, none) := by decide
